import Mathlib

/-!
Verification of `pandas_decorators.py` (runtime contract-checking decorators
for pandas DataFrames) against its specification.

The module is shallowly embedded:

* A pandas `DataFrame` is abstracted to what this library inspects: its
  ordered column names together with each column's dtype (modelled as a
  string token such as "int64").  `df.columns` is the list of first
  components; `df[c].dtype` is the first dtype associated with `c`.
* A `ColumnsDef` is either the list form (`isinstance(columns, list)`) or
  the dict form (`isinstance(columns, dict)`); a Python dict iterates its
  entries in insertion order, so it is embedded as an association list.
* Python assertion failures and other raised exceptions are modelled with
  `Except PyErr`; the `PyErr` constructors carry the data that the source
  interpolates into the assertion message (the missing column and the
  actual columns present, the offending column with actual and expected
  dtype, the unexpected-column set difference, the runtime type name).
* A wrapped Python function is a value of `PyFunc`: it receives the
  positional arguments and the keyword arguments and either returns a value
  or raises.
* `logging.log` side effects are modelled by returning the list of emitted
  `LogRecord`s alongside the wrapper's result.
-/

set_option autoImplicit false

namespace PandasDecorators

/-- A pandas DataFrame abstracted to its columns: each entry is a column
name paired with the dtype token of that column. -/
structure DataFrame where
  cols : List (String × String)
deriving DecidableEq

/-- `df.columns` of the source: the ordered list of column names. -/
def DataFrame.columnNames (df : DataFrame) : List String :=
  df.cols.map Prod.fst

/-- First-match association lookup; models Python dict lookup (`kwargs[name]`,
`name in kwargs`) and column selection `df[column]` (pandas label lookup,
first match for the usual unique-name case). -/
def pyLookup {α : Type} (k : String) : List (String × α) → Option α
  | [] => Option.none
  | (k2, v) :: rest => if k2 = k then Option.some v else pyLookup k rest

/-- `df[column].dtype` of the source.  Only meaningful when `column` is a
member of `df.columnNames` (the source only evaluates it after asserting
membership); otherwise it returns a junk default. -/
def DataFrame.dtypeOf (df : DataFrame) (column : String) : String :=
  (pyLookup column df.cols).getD ""

/-- `ColumnsDef = Union[List, Dict]` of the source. -/
inductive ColumnsDef
  | list (names : List String)
  | dict (entries : List (String × String))
deriving DecidableEq

/-- `len(columns)`: length of the list, or number of entries of the dict. -/
def ColumnsDef.entryNames : ColumnsDef → List String
  | ColumnsDef.list names => names
  | ColumnsDef.dict entries => entries.map Prod.fst

/-- `len(columns)` of the source. -/
def ColumnsDef.entryCount (c : ColumnsDef) : Nat :=
  c.entryNames.length

/-- Python truthiness of a `ColumnsDef` value (`if columns:`): an empty list
or empty dict is falsy. -/
def ColumnsDef.isTruthy : ColumnsDef → Bool
  | ColumnsDef.list names => !names.isEmpty
  | ColumnsDef.dict entries => !entries.isEmpty

/-- The exceptions the source can raise.  Each `assert...` constructor
carries the data interpolated into the corresponding assertion message. -/
inductive PyErr
  /-- `f"Column {column} missing from DataFrame. Got {_describe_pd(df)}"` -/
  | assertMissingColumn (column : String) (present : List String)
  /-- `f"Column {column} has wrong dtype. Was {actual}, expected {expected}"` -/
  | assertWrongDtype (column actual expected : String)
  /-- `f"DataFrame contained unexpected column(s): ..."` (the set difference) -/
  | assertUnexpectedColumns (extra : List String)
  /-- `df_in`: `f"Wrong parameter type. Expected Pandas DataFrame, got {type(df).__name__} instead."` -/
  | assertWrongParamType (tyName : String)
  /-- `df_out`: `f"Wrong return type. Expected pandas dataframe, got {type(result)}"` -/
  | assertWrongReturnType (tyName : String)
  /-- `list.index(name)` raising `ValueError` when `name` is absent. -/
  | valueError (nm : String)
  /-- `args[i]` raising `IndexError`. -/
  | indexError (index : Nat)
  /-- An arbitrary exception raised by the wrapped function's own body. -/
  | userError (message : String)
deriving DecidableEq

/-- `set(df.columns) - set(columns)` of the source, as the canonical list:
the distinct column names of `df` that are not named by the spec. -/
def unexpectedColumns (df : DataFrame) (columns : ColumnsDef) : List String :=
  df.columnNames.dedup.filter (fun n => decide (n ∉ columns.entryNames))

/-- The list-form loop of `_check_columns`:
`for column in columns: assert column in df.columns, ...`. -/
def checkList (df : DataFrame) : List String → Except PyErr Unit
  | [] => Except.ok ()
  | column :: rest =>
      if column ∈ df.columnNames then checkList df rest
      else Except.error (PyErr.assertMissingColumn column df.columnNames)

/-- The dict-form loop of `_check_columns`:
`for column, dtype in columns.items():` asserting membership first, then
`df[column].dtype == dtype`. -/
def checkDict (df : DataFrame) : List (String × String) → Except PyErr Unit
  | [] => Except.ok ()
  | (column, dtype) :: rest =>
      if column ∈ df.columnNames then
        if df.dtypeOf column = dtype then checkDict df rest
        else Except.error (PyErr.assertWrongDtype column (df.dtypeOf column) dtype)
      else Except.error (PyErr.assertMissingColumn column df.columnNames)

/-- The two `isinstance` branches of `_check_columns`; exactly one applies
to any `ColumnsDef` value. -/
def innerCheck (df : DataFrame) : ColumnsDef → Except PyErr Unit
  | ColumnsDef.list names => checkList df names
  | ColumnsDef.dict entries => checkDict df entries

/-- `_check_columns(df, columns, strict)` of the source: the list/dict
membership-and-dtype loop, then, under `strict`,
`assert len(df.columns) == len(columns)` with the set-difference message. -/
def check_columns (df : DataFrame) (columns : ColumnsDef) (strict : Bool) :
    Except PyErr Unit :=
  match innerCheck df columns with
  | Except.error e => Except.error e
  | Except.ok _ =>
      if strict then
        if df.columnNames.length = columns.entryCount then Except.ok ()
        else Except.error (PyErr.assertUnexpectedColumns (unexpectedColumns df columns))
      else Except.ok ()

/-- A Python runtime value as far as this library inspects it: a DataFrame,
`None`, or any other object carrying only its runtime type name. -/
inductive PyValue
  | df (d : DataFrame)
  | obj (tyName : String)
  | none
deriving DecidableEq

/-- `type(v).__name__` of the source. -/
def PyValue.typeName : PyValue → String
  | PyValue.df _ => "DataFrame"
  | PyValue.obj t => t
  | PyValue.none => "NoneType"

/-- `isinstance(v, pd.DataFrame)` of the source. -/
def PyValue.isDataFrame : PyValue → Bool
  | PyValue.df _ => true
  | _ => false

/-- `list.index(x)` of Python, returning `none` where Python raises
`ValueError`. -/
def listIndex (x : String) : List String → Option Nat
  | [] => Option.none
  | s :: rest => if s = x then Option.some 0 else (listIndex x rest).map (fun i => i + 1)

/-- A wrapped Python function: from positional and keyword arguments to a
returned value or a raised exception. -/
def PyFunc : Type :=
  List PyValue → List (String × PyValue) → Except PyErr PyValue

/-- `_get_parameter(func, name, *args, **kwargs)` of the source.
`funcParams` is `list(inspect.signature(func).parameters.keys())`, the
wrapped function's declared parameter order.  Python's `if not name:` is
falsy for both `None` and the empty string.  The source tests
`name not in kwargs` before indexing positionally and otherwise returns
`kwargs[name]`; here the two outcomes of that dict test are matched
directly. -/
def get_parameter (funcParams : List String) (name : Option String)
    (args : List PyValue) (kwargs : List (String × PyValue)) :
    Except PyErr PyValue :=
  match name with
  | Option.none =>
      match args with
      | [] => Except.ok PyValue.none
      | a :: _ => Except.ok a
  | Option.some n =>
      if n = "" then
        match args with
        | [] => Except.ok PyValue.none
        | a :: _ => Except.ok a
      else
        match pyLookup n kwargs with
        | Option.some v => Except.ok v
        | Option.none =>
            match listIndex n funcParams with
            | Option.none => Except.error (PyErr.valueError n)
            | Option.some i =>
                match args.get? i with
                | Option.none => Except.error (PyErr.indexError i)
                | Option.some a => Except.ok a

/-- The `wrapper` closure produced by `df_in(name, columns, strict)` applied
to `func`: locate the parameter, assert it is a DataFrame, run
`_check_columns` when `columns` is truthy, then call `func` with the
original arguments. -/
def df_in_wrapper (name : Option String) (columns : Option ColumnsDef)
    (strict : Bool) (funcParams : List String) (func : PyFunc)
    (args : List PyValue) (kwargs : List (String × PyValue)) :
    Except PyErr PyValue :=
  match get_parameter funcParams name args kwargs with
  | Except.error e => Except.error e
  | Except.ok v =>
      match v with
      | PyValue.df d =>
          match columns with
          | Option.some c =>
              if c.isTruthy then
                match check_columns d c strict with
                | Except.error e => Except.error e
                | Except.ok _ => func args kwargs
              else func args kwargs
          | Option.none => func args kwargs
      | _ => Except.error (PyErr.assertWrongParamType v.typeName)

/-- The `wrapper` closure produced by `df_out(columns, strict)` applied to
`func`: call `func` first, assert the result is a DataFrame, run
`_check_columns` when `columns` is truthy, then return the result. -/
def df_out_wrapper (columns : Option ColumnsDef) (strict : Bool)
    (func : PyFunc) (args : List PyValue)
    (kwargs : List (String × PyValue)) : Except PyErr PyValue :=
  match func args kwargs with
  | Except.error e => Except.error e
  | Except.ok result =>
      match result with
      | PyValue.df d =>
          match columns with
          | Option.some c =>
              if c.isTruthy then
                match check_columns d c strict with
                | Except.error e => Except.error e
                | Except.ok _ => Except.ok result
              else Except.ok result
          | Option.none => Except.ok result
      | _ => Except.error (PyErr.assertWrongReturnType result.typeName)

/-- One record emitted through `logging.log`, structured as the data that
`_describe_pd` interpolates into the message. -/
structure LogRecord where
  level : Nat
  funcName : String
  tag : String
  columns : List String
  dtypes : Option (List String)
deriving DecidableEq

/-- `_log_input`: emits one record when the located parameter is a
DataFrame, nothing otherwise. -/
def log_input (level : Nat) (funcName : String) (v : PyValue)
    (includeDtypes : Bool) : List LogRecord :=
  match v with
  | PyValue.df d =>
      [⟨level, funcName, "parameters", d.columnNames,
        if includeDtypes then Option.some (d.cols.map Prod.snd) else Option.none⟩]
  | _ => []

/-- `_log_output`: emits one record when the result is a DataFrame, nothing
otherwise. -/
def log_output (level : Nat) (funcName : String) (v : PyValue)
    (includeDtypes : Bool) : List LogRecord :=
  match v with
  | PyValue.df d =>
      [⟨level, funcName, "returned", d.columnNames,
        if includeDtypes then Option.some (d.cols.map Prod.snd) else Option.none⟩]
  | _ => []

/-- The `wrapper` closure produced by `df_log(level, include_dtypes)`
applied to `func`: log the located first positional argument, call `func`,
log the result, and fall off the end — returning Python `None` regardless
of `func`'s return value.  The emitted records are returned alongside. -/
def df_log_wrapper (level : Nat) (includeDtypes : Bool) (funcName : String)
    (funcParams : List String) (func : PyFunc) (args : List PyValue)
    (kwargs : List (String × PyValue)) :
    List LogRecord × Except PyErr PyValue :=
  match get_parameter funcParams Option.none args kwargs with
  | Except.error e => ([], Except.error e)
  | Except.ok v =>
      let inputLogs := log_input level funcName v includeDtypes
      match func args kwargs with
      | Except.error e => (inputLogs, Except.error e)
      | Except.ok result =>
          (inputLogs ++ log_output level funcName result includeDtypes,
           Except.ok PyValue.none)

/-! ### Helper lemmas about the column checker -/

theorem checkList_ok_iff (df : DataFrame) (names : List String) :
    checkList df names = Except.ok () ↔ ∀ c ∈ names, c ∈ df.columnNames := by
  induction names with
  | nil => simp [checkList]
  | cons c rest ih =>
      by_cases h : c ∈ df.columnNames
      · simp [checkList, h, ih]
      · simp [checkList, h]

theorem checkList_cases (df : DataFrame) (names : List String) :
    checkList df names = Except.ok ()
      ∨ ∃ c, c ∈ names ∧ c ∉ df.columnNames
          ∧ checkList df names
              = Except.error (PyErr.assertMissingColumn c df.columnNames) := by
  induction names with
  | nil => left; rfl
  | cons c rest ih =>
      by_cases h : c ∈ df.columnNames
      · rcases ih with hok | ⟨c2, hmem, hno, herr⟩
        · left; simp [checkList, h, hok]
        · right; exact ⟨c2, List.mem_cons_of_mem _ hmem, hno, by simp [checkList, h, herr]⟩
      · right; exact ⟨c, List.mem_cons_self c rest, h, by simp [checkList, h]⟩

theorem checkDict_ok_iff (df : DataFrame) (entries : List (String × String)) :
    checkDict df entries = Except.ok ()
      ↔ ∀ p ∈ entries, p.1 ∈ df.columnNames ∧ df.dtypeOf p.1 = p.2 := by
  induction entries with
  | nil => simp [checkDict]
  | cons p rest ih =>
      obtain ⟨column, dtype⟩ := p
      by_cases h : column ∈ df.columnNames
      · by_cases h2 : df.dtypeOf column = dtype
        · simp [checkDict, h, h2, ih]
        · simp [checkDict, h, h2]
      · simp [checkDict, h]

theorem checkDict_wrongDtype_inv (df : DataFrame)
    (entries : List (String × String)) (c a e : String) :
    checkDict df entries = Except.error (PyErr.assertWrongDtype c a e) →
      (c, e) ∈ entries ∧ c ∈ df.columnNames ∧ df.dtypeOf c = a ∧ a ≠ e := by
  induction entries with
  | nil => intro h; simp [checkDict] at h
  | cons p rest ih =>
      obtain ⟨column, dtype⟩ := p
      by_cases h1 : column ∈ df.columnNames
      · by_cases h2 : df.dtypeOf column = dtype
        · intro h
          rw [show checkDict df ((column, dtype) :: rest) = checkDict df rest by
                simp [checkDict, h1, h2]] at h
          rcases ih h with ⟨hm, hc, hd, hne⟩
          exact ⟨List.mem_cons_of_mem _ hm, hc, hd, hne⟩
        · intro h
          have hstep : checkDict df ((column, dtype) :: rest)
              = Except.error
                  (PyErr.assertWrongDtype column (df.dtypeOf column) dtype) := by
            simp [checkDict, h1, h2]
          rw [hstep] at h
          simp only [Except.error.injEq, PyErr.assertWrongDtype.injEq] at h
          obtain ⟨hcol, hact, hexp⟩ := h
          subst hcol; subst hexp
          exact ⟨List.mem_cons_self _ _, h1, hact, by rw [← hact]; exact h2⟩
      · intro h
        simp [checkDict, h1] at h

theorem check_columns_nonstrict_list (df : DataFrame) (names : List String) :
    check_columns df (ColumnsDef.list names) false = checkList df names := by
  cases h : checkList df names with
  | ok u => cases u; simp [check_columns, innerCheck, h]
  | error e => simp [check_columns, innerCheck, h]

theorem check_columns_nonstrict_dict (df : DataFrame)
    (entries : List (String × String)) :
    check_columns df (ColumnsDef.dict entries) false = checkDict df entries := by
  cases h : checkDict df entries with
  | ok u => cases u; simp [check_columns, innerCheck, h]
  | error e => simp [check_columns, innerCheck, h]

theorem mem_unexpectedColumns (df : DataFrame) (columns : ColumnsDef)
    (n : String) :
    n ∈ unexpectedColumns df columns
      ↔ n ∈ df.columnNames ∧ n ∉ columns.entryNames := by
  simp [unexpectedColumns, List.mem_filter, List.mem_dedup]

/-! ### Concrete fixtures used by witness theorems -/

/-- A DataFrame with integer columns `a` and `b`. -/
def dfAB : DataFrame :=
  ⟨[("a", "int64"), ("b", "int64")]⟩

/-- A DataFrame with a single float column `a`. -/
def dfAFloat : DataFrame :=
  ⟨[("a", "float64")]⟩

/-! ### Claims -/

/-- C1: for every structure `S` and list-form spec `L`,
`check(S, L, strict=false)` succeeds iff every name in `L` is among `S`'s
columns; when some name is absent it fails with an error naming a missing
column and listing the columns actually present. -/
theorem c1_check_list_nonstrict (df : DataFrame) (L : List String) :
    (check_columns df (ColumnsDef.list L) false = Except.ok ()
        ↔ ∀ c ∈ L, c ∈ df.columnNames)
  ∧ ((∃ c ∈ L, c ∉ df.columnNames) →
        ∃ c, c ∈ L ∧ c ∉ df.columnNames
          ∧ check_columns df (ColumnsDef.list L) false
              = Except.error (PyErr.assertMissingColumn c df.columnNames)) := by
  constructor
  · rw [check_columns_nonstrict_list]
    exact checkList_ok_iff df L
  · intro hex
    rcases checkList_cases df L with hok | ⟨c, hm, hn, he⟩
    · exfalso
      rcases hex with ⟨c, hc, hn⟩
      exact hn ((checkList_ok_iff df L).1 hok c hc)
    · exact ⟨c, hm, hn, by rw [check_columns_nonstrict_list]; exact he⟩

/-- Witness for C1 at the spec's own scenario: columns `["a","b"]`, spec
`["a","b","c"]`, non-strict, yields a missing-column error naming the
missing column and the present columns. -/
theorem c1_witness :
    ∃ c, c ∈ ["a", "b", "c"] ∧ c ∉ dfAB.columnNames
      ∧ check_columns dfAB (ColumnsDef.list ["a", "b", "c"]) false
          = Except.error (PyErr.assertMissingColumn c dfAB.columnNames) :=
  (c1_check_list_nonstrict dfAB ["a", "b", "c"]).2 ⟨"c", by decide, by decide⟩

/-- C2: for every structure `S` and dict-form spec `D`,
`check(S, D, strict=false)` succeeds iff every key of `D` is a column of
`S` with the declared element type; a wrong-dtype error always names a key
of `D`, the column's actual dtype, and the expected dtype they differ. -/
theorem c2_check_dict_nonstrict (df : DataFrame)
    (D : List (String × String)) :
    (check_columns df (ColumnsDef.dict D) false = Except.ok ()
        ↔ ∀ p ∈ D, p.1 ∈ df.columnNames ∧ df.dtypeOf p.1 = p.2)
  ∧ (∀ c a e,
        check_columns df (ColumnsDef.dict D) false
            = Except.error (PyErr.assertWrongDtype c a e) →
          (c, e) ∈ D ∧ c ∈ df.columnNames ∧ df.dtypeOf c = a ∧ a ≠ e) := by
  constructor
  · rw [check_columns_nonstrict_dict]
    exact checkDict_ok_iff df D
  · intro c a e h
    rw [check_columns_nonstrict_dict] at h
    exact checkDict_wrongDtype_inv df D c a e h

/-- Witness for C2 at the spec's own scenario: dict spec `{"a": int64}`
against a structure whose column `a` has dtype `float64` yields the
type-mismatch error naming `a`, `float64` and `int64`. -/
theorem c2_witness :
    ("a", "int64") ∈ [("a", "int64")]
      ∧ "a" ∈ dfAFloat.columnNames
      ∧ dfAFloat.dtypeOf "a" = "float64"
      ∧ "float64" ≠ "int64" :=
  (c2_check_dict_nonstrict dfAFloat [("a", "int64")]).2 "a" "float64" "int64"
    (by rfl)

/-- C3: for every structure `S` and non-empty spec `C`,
`check(S, C, strict=true)` succeeds iff the non-strict check succeeds and
`S` has exactly as many columns as `C` has entries; on a strictness failure
the error lists the set difference of `S`'s columns minus `C`'s names. -/
theorem c3_check_strict (df : DataFrame) (C : ColumnsDef)
    (_hC : C.isTruthy = true) :
    (check_columns df C true = Except.ok ()
        ↔ (check_columns df C false = Except.ok ()
            ∧ df.columnNames.length = C.entryCount))
  ∧ (check_columns df C false = Except.ok () →
        df.columnNames.length ≠ C.entryCount →
        check_columns df C true
          = Except.error
              (PyErr.assertUnexpectedColumns (unexpectedColumns df C)))
  ∧ (∀ n, n ∈ unexpectedColumns df C
        ↔ n ∈ df.columnNames ∧ n ∉ C.entryNames) := by
  refine ⟨?_, ?_, fun n => mem_unexpectedColumns df C n⟩
  · cases hi : innerCheck df C with
    | error e => simp [check_columns, hi]
    | ok u =>
        cases u
        by_cases hlen : df.columnNames.length = C.entryCount
        · simp [check_columns, hi, hlen]
        · simp [check_columns, hi, hlen]
  · intro hok hlen
    cases hi : innerCheck df C with
    | error e => rw [check_columns, hi] at hok; exact absurd hok (by simp)
    | ok u => cases u; simp [check_columns, hi, hlen]

/-- Witness for C3 at the spec's own scenario: columns `["a","b","extra"]`
against spec `["a","b"]` in strict mode fail with the unexpected-column
error naming exactly `extra`. -/
theorem c3_witness :
    check_columns ⟨[("a", "int64"), ("b", "int64"), ("extra", "int64")]⟩
        (ColumnsDef.list ["a", "b"]) true
      = Except.error
          (PyErr.assertUnexpectedColumns
            (unexpectedColumns ⟨[("a", "int64"), ("b", "int64"), ("extra", "int64")]⟩
              (ColumnsDef.list ["a", "b"]))) :=
  (c3_check_strict ⟨[("a", "int64"), ("b", "int64"), ("extra", "int64")]⟩
      (ColumnsDef.list ["a", "b"]) (by decide)).2.1 (by rfl) (by decide)

/-- C4: with no parameter name, the Parameter Locator returns the first
positional argument when there is one and the absent sentinel (Python
`None`) when `args` is empty, for every signature and every `kwargs`. -/
theorem c4_get_parameter_unnamed (funcParams : List String)
    (args : List PyValue) (kwargs : List (String × PyValue)) :
    get_parameter funcParams Option.none args kwargs
      = Except.ok (args.headD PyValue.none) := by
  cases args <;> rfl

/-- C5: for a parameter name `n` declared at index `i` of the wrapped
function's signature, the locator returns `kwargs[n]` when present;
otherwise it returns the positional argument at index `i`, and fails with
an index error when fewer positional arguments were supplied. -/
theorem c5_get_parameter_named (funcParams : List String) (n : String)
    (args : List PyValue) (kwargs : List (String × PyValue)) (i : Nat)
    (hne : n ≠ "") (hidx : listIndex n funcParams = Option.some i) :
    (∀ v, pyLookup n kwargs = Option.some v →
        get_parameter funcParams (Option.some n) args kwargs = Except.ok v)
  ∧ (pyLookup n kwargs = Option.none →
        (∀ a, args.get? i = Option.some a →
            get_parameter funcParams (Option.some n) args kwargs = Except.ok a)
      ∧ (args.get? i = Option.none →
            get_parameter funcParams (Option.some n) args kwargs
              = Except.error (PyErr.indexError i))) := by
  constructor
  · intro v hv
    simp [get_parameter, hne, hv]
  · intro hkw
    constructor
    · intro a ha
      rw [List.get?_eq_getElem?] at ha
      simp [get_parameter, hne, hkw, hidx, ha]
    · intro ha
      rw [List.get?_eq_getElem?] at ha
      simp [get_parameter, hne, hkw, hidx, ha]

/-- Witness for C5: parameter `y` is declared second; with one positional
argument and no keywords the locator fails with `IndexError` at index 1,
and with `y` among the keywords it returns the keyword value. -/
theorem c5_witness :
    get_parameter ["x", "y"] (Option.some "y") [PyValue.obj "int"] []
        = Except.error (PyErr.indexError 1)
      ∧ get_parameter ["x", "y"] (Option.some "y") [PyValue.obj "int"]
          [("y", PyValue.df dfAB)] = Except.ok (PyValue.df dfAB) :=
  ⟨((c5_get_parameter_named ["x", "y"] "y" [PyValue.obj "int"] [] 1
      (by decide) (by rfl)).2 (by rfl)).2 (by rfl),
   (c5_get_parameter_named ["x", "y"] "y" [PyValue.obj "int"]
      [("y", PyValue.df dfAB)] 1 (by decide) (by rfl)).1 (PyValue.df dfAB)
      (by rfl)⟩

/-- C6: when the located argument of an Input-Guard-decorated call is not a
DataFrame, the wrapper fails with a type-mismatch error naming the actual
runtime type — for every wrapped function `func`, so `func`'s body is never
consulted; and when the located argument is a DataFrame and every supplied
column check passes, the wrapper is exactly `func` applied to the original
arguments. -/
theorem c6_df_in_guard (name : Option String) (columns : Option ColumnsDef)
    (strict : Bool) (funcParams : List String) (func : PyFunc)
    (args : List PyValue) (kwargs : List (String × PyValue)) :
    (∀ v, get_parameter funcParams name args kwargs = Except.ok v →
        v.isDataFrame = false →
        df_in_wrapper name columns strict funcParams func args kwargs
          = Except.error (PyErr.assertWrongParamType v.typeName))
  ∧ (∀ d, get_parameter funcParams name args kwargs
          = Except.ok (PyValue.df d) →
        (∀ c, columns = Option.some c → c.isTruthy = true →
            check_columns d c strict = Except.ok ()) →
        df_in_wrapper name columns strict funcParams func args kwargs
          = func args kwargs) := by
  constructor
  · intro v hv hnd
    cases v with
    | df d => simp [PyValue.isDataFrame] at hnd
    | obj t => simp [df_in_wrapper, hv]
    | none => simp [df_in_wrapper, hv]
  · intro d hv hchecks
    cases columns with
    | none => simp [df_in_wrapper, hv]
    | some c =>
        cases ht : c.isTruthy with
        | false => simp [df_in_wrapper, hv, ht]
        | true => simp [df_in_wrapper, hv, ht, hchecks c rfl ht]

/-- Witness for C6: a call whose first positional argument is an `int`
fails with the type-mismatch error naming `int`, and this does not depend
on the wrapped function. -/
theorem c6_witness :
    df_in_wrapper Option.none Option.none false ["x"]
        (fun _ _ => Except.ok PyValue.none) [PyValue.obj "int"] []
      = Except.error (PyErr.assertWrongParamType "int") :=
  (c6_df_in_guard Option.none Option.none false ["x"]
      (fun _ _ => Except.ok PyValue.none) [PyValue.obj "int"] []).1
    (PyValue.obj "int") (by rfl) (by rfl)

/-- C7: the Output Guard validates strictly after the wrapped call: when
`func` raises, that very error is the wrapper's result (no validation error
replaces it), and when `func` returns a DataFrame that passes the supplied
checks, the wrapper returns that result unchanged. -/
theorem c7_df_out_guard (columns : Option ColumnsDef) (strict : Bool)
    (func : PyFunc) (args : List PyValue)
    (kwargs : List (String × PyValue)) :
    (∀ e, func args kwargs = Except.error e →
        df_out_wrapper columns strict func args kwargs = Except.error e)
  ∧ (∀ d, func args kwargs = Except.ok (PyValue.df d) →
        (∀ c, columns = Option.some c → c.isTruthy = true →
            check_columns d c strict = Except.ok ()) →
        df_out_wrapper columns strict func args kwargs
          = Except.ok (PyValue.df d)) := by
  constructor
  · intro e he
    simp [df_out_wrapper, he]
  · intro d hd hchecks
    cases columns with
    | none => simp [df_out_wrapper, hd]
    | some c =>
        cases ht : c.isTruthy with
        | false => simp [df_out_wrapper, hd, ht]
        | true => simp [df_out_wrapper, hd, ht, hchecks c rfl ht]

/-- Witness for C7: a wrapped function that raises propagates its own error
through the Output Guard even under a strict column spec. -/
theorem c7_witness :
    df_out_wrapper (Option.some (ColumnsDef.list ["a"])) true
        (fun _ _ => Except.error (PyErr.userError "boom")) [] []
      = Except.error (PyErr.userError "boom") :=
  (c7_df_out_guard (Option.some (ColumnsDef.list ["a"])) true
      (fun _ _ => Except.error (PyErr.userError "boom")) [] []).1
    (PyErr.userError "boom") (by rfl)

/-- C8: whenever the wrapped function returns a value, the Shape-Logger
wrapper discards it and returns Python `None` to its caller. -/
theorem c8_df_log_discards (level : Nat) (includeDtypes : Bool)
    (funcName : String) (funcParams : List String) (func : PyFunc)
    (args : List PyValue) (kwargs : List (String × PyValue)) (r : PyValue)
    (hr : func args kwargs = Except.ok r) :
    (df_log_wrapper level includeDtypes funcName funcParams func args
        kwargs).2 = Except.ok PyValue.none := by
  cases args with
  | nil => simp [df_log_wrapper, get_parameter, hr]
  | cons a rest => simp [df_log_wrapper, get_parameter, hr]

/-- Witness for C8: a wrapped function returning a DataFrame still yields
`None` from the Shape-Logger wrapper. -/
theorem c8_witness :
    (df_log_wrapper 10 false "f" ["x"]
        (fun _ _ => Except.ok (PyValue.df dfAB)) [PyValue.df dfAB] []).2
      = Except.ok PyValue.none :=
  c8_df_log_discards 10 false "f" ["x"]
    (fun _ _ => Except.ok (PyValue.df dfAB)) [PyValue.df dfAB] []
    (PyValue.df dfAB) (by rfl)

/-- C9 counterexample: the Column Checker itself, called with an empty
list spec in strict mode on a structure with a column, does fail — with
the unexpected-column assertion — contradicting "performs no checks and
never fails" for both strictness values. -/
theorem c9_counterexample :
    check_columns dfAFloat (ColumnsDef.list []) true
        = Except.error (PyErr.assertUnexpectedColumns ["a"])
      ∧ check_columns dfAFloat (ColumnsDef.list []) true ≠ Except.ok () := by
  constructor
  · rfl
  · intro h
    have h2 : check_columns dfAFloat (ColumnsDef.list []) true
        = Except.error (PyErr.assertUnexpectedColumns ["a"]) := rfl
    rw [h] at h2
    exact Except.noConfusion h2

/-- C9 (amended): an empty column specification performs no checks and
never fails when `strict` is false; when `strict` is true the Column
Checker itself still compares the structure's column count with the empty
spec and fails exactly when the structure has columns; the Input and
Output Guards, however, skip the Column Checker entirely when the supplied
specification is empty or absent, so the wrappers behave identically with
an empty spec and with no spec at all. -/
theorem c9_empty_spec (df : DataFrame) (c : ColumnsDef)
    (hc : c.isTruthy = false) (name : Option String) (strict : Bool)
    (funcParams : List String) (func : PyFunc) (args : List PyValue)
    (kwargs : List (String × PyValue)) :
    (check_columns df c false = Except.ok ())
  ∧ (check_columns df c true = Except.ok ()
        ↔ df.columnNames.length = c.entryCount)
  ∧ (df_in_wrapper name (Option.some c) strict funcParams func args kwargs
        = df_in_wrapper name Option.none strict funcParams func args kwargs)
  ∧ (df_out_wrapper (Option.some c) strict func args kwargs
        = df_out_wrapper Option.none strict func args kwargs) := by
  have hinner : innerCheck df c = Except.ok () := by
    cases c with
    | list names =>
        cases names with
        | nil => rfl
        | cons a rest => simp [ColumnsDef.isTruthy] at hc
    | dict entries =>
        cases entries with
        | nil => rfl
        | cons a rest => simp [ColumnsDef.isTruthy] at hc
  refine ⟨?_, ?_, ?_, ?_⟩
  · simp [check_columns, hinner]
  · by_cases hlen : df.columnNames.length = c.entryCount
    · simp [check_columns, hinner, hlen]
    · simp [check_columns, hinner, hlen]
  · cases hg : get_parameter funcParams name args kwargs with
    | error e => simp [df_in_wrapper, hg]
    | ok v =>
        cases v with
        | df d => simp [df_in_wrapper, hg, hc]
        | obj t => simp [df_in_wrapper, hg]
        | none => simp [df_in_wrapper, hg]
  · cases hf : func args kwargs with
    | error e => simp [df_out_wrapper, hf]
    | ok v =>
        cases v with
        | df d => simp [df_out_wrapper, hf, hc]
        | obj t => simp [df_out_wrapper, hf]
        | none => simp [df_out_wrapper, hf]

/-- Witness for C9 (amended), at an empty list spec, a one-column
structure, and a concrete wrapped function. -/
theorem c9_witness :
    (check_columns dfAFloat (ColumnsDef.list []) false = Except.ok ())
  ∧ (check_columns dfAFloat (ColumnsDef.list []) true = Except.ok ()
        ↔ dfAFloat.columnNames.length = (ColumnsDef.list []).entryCount)
  ∧ (df_in_wrapper Option.none (Option.some (ColumnsDef.list [])) true ["x"]
        (fun _ _ => Except.ok (PyValue.df dfAFloat)) [PyValue.df dfAFloat] []
      = df_in_wrapper Option.none Option.none true ["x"]
          (fun _ _ => Except.ok (PyValue.df dfAFloat)) [PyValue.df dfAFloat] [])
  ∧ (df_out_wrapper (Option.some (ColumnsDef.list [])) true
        (fun _ _ => Except.ok (PyValue.df dfAFloat)) [PyValue.df dfAFloat] []
      = df_out_wrapper Option.none true
          (fun _ _ => Except.ok (PyValue.df dfAFloat)) [PyValue.df dfAFloat] []) :=
  c9_empty_spec dfAFloat (ColumnsDef.list []) (by rfl) Option.none true ["x"]
    (fun _ _ => Except.ok (PyValue.df dfAFloat)) [PyValue.df dfAFloat] []

/-- C10: an Input-Guard-decorated call with no parameter name configured
and zero positional arguments always fails with the type-mismatch error
reporting `NoneType` — whatever DataFrames may sit in `kwargs`, the locator
never inspects them. -/
theorem c10_df_in_no_positional (columns : Option ColumnsDef)
    (strict : Bool) (funcParams : List String) (func : PyFunc)
    (kwargs : List (String × PyValue)) :
    df_in_wrapper Option.none columns strict funcParams func [] kwargs
      = Except.error (PyErr.assertWrongParamType "NoneType") := by
  rfl

end PandasDecorators
